import Mathlib

/-!
Shallow embedding of the 28-day challenge progress engine of this repository
(`app/services/challenge_service.py` and the `complete-problem` /
`bonus-problem` handlers of `app/routes/api.py`), together with proofs about
the claims of the specification.

Modelling conventions:
* Python dicts with optional keys are modelled as Lean structures whose fields
  hold the `dict.get(key, default)` value; an absent key is the same as the
  default value, which is what every read in the source performs.
* `problems_solved` is a dict `day_key ↦ list of problem ids`; it is modelled
  as an association list `List (String × List String)` iterated in order
  (Python dicts preserve insertion order and have unique keys).
* Dates: `datetime.fromisoformat` parsing is modelled by an `Option Int`
  (the parsed calendar date as an ordinal day count, `none` for a string on
  which parsing raises); `datetime.now().date()` is an ordinal `Int`
  parameter.  Calendar-date subtraction `(today - start).days` is ordinal
  subtraction.
* Machine integers: Python ints are unbounded, exactly `Int` (counts `Nat`).
-/

namespace Challenge

/-- A catalog problem entry (`{id, name, difficulty, ...}`).  `difficulty` is
`none` when the `'difficulty'` key is absent from the JSON entry. -/
structure Problem where
  id : String
  name : String
  difficulty : Option String
  deriving Repr, DecidableEq

/-- A catalog day entry (`{day, theme, problems}`). -/
structure DayDef where
  day : Int
  problems : List Problem
  deriving Repr, DecidableEq

/-- The loaded `challenge_data`: the `days` list and the optional
`point_values` table (`none` models a JSON document without the
`'point_values'` key, in which case `calculate_points` uses its inline
default table). -/
structure Catalog where
  days : List DayDef
  pointValues : Option (List (String × Int))
  deriving Repr, DecidableEq

/-- A Skool submission; `status` is `none` when the `'status'` key is
absent. -/
structure SkoolSubmission where
  status : Option String
  deriving Repr, DecidableEq

/-- A bonus problem entry appended by the `bonus-problem` route
(`{url, name, added_at}`; `added_at` is display-only and omitted). -/
structure BonusProblem where
  url : String
  name : String
  deriving Repr, DecidableEq

/-- A user's challenge record from Clerk metadata.  Each field holds the
value `challenge_data.get(key, default)` would produce, so an absent key is
represented by the default (`0`, `[]`). -/
structure ChallengeData where
  problems_solved : List (String × List String) := []
  days_completed : List Int := []
  total_problems_solved : Int := 0
  current_streak : Int := 0
  best_streak : Int := 0
  points : Int := 0
  achievements : List String := []
  bonus_problems : List BonusProblem := []
  skool_submissions : List SkoolSubmission := []
  deriving Repr, DecidableEq

/-- `get_day_problems`: first catalog day with matching number, else `[]`. -/
def get_day_problems (c : Catalog) (day : Int) : List Problem :=
  match c.days.find? (fun d => d.day == day) with
  | some d => d.problems
  | none => []

/-- `get_problem`: look a problem id up within a single day. -/
def get_problem (c : Catalog) (day : Int) (problem_id : String) : Option Problem :=
  (get_day_problems c day).find? (fun p => p.id == problem_id)

/-- `get_problem_by_id`: scan all days, first match wins. -/
def get_problem_by_id (c : Catalog) (problem_id : String) : Option Problem :=
  go c.days
where
  go : List DayDef → Option Problem
    | [] => none
    | d :: rest =>
      match d.problems.find? (fun p => p.id == problem_id) with
      | some p => some p
      | none => go rest

/-- `calculate_current_day`, with the `datetime` calls factored out:
`parsed` is the result of `datetime.fromisoformat(start_date...).date()`
(`none` when parsing raises `ValueError`/`AttributeError`, which the source
catches and turns into `return 1`), `todayOrd` is `datetime.now().date()`;
both as ordinal day counts. -/
def calculate_current_day (parsed : Option Int) (todayOrd : Int) : Int :=
  match parsed with
  | none => 1
  | some start_day => min (max ((todayOrd - start_day) + 1) 1) 28

/-- The backwards walk of `calculate_streak`:
`for day in range(current_day, 0, -1)` counting while `day in days_completed`.
`countStreak dc n` walks days `n, n-1, ..., 1`. -/
def countStreak (dc : List Int) : Nat → Nat
  | 0 => 0
  | n + 1 => if ((n : Int) + 1) ∈ dc then countStreak dc n + 1 else 0

/-- `calculate_streak`: early `0` on an empty list, then the backwards walk
(`range(current_day, 0, -1)` is empty when `current_day ≤ 0`, which
`Int.toNat` reproduces). -/
def calculate_streak (days_completed : List Int) (current_day : Int) : Nat :=
  if days_completed.isEmpty then 0
  else countStreak days_completed current_day.toNat

/-- Taken from the claim's words: `k` is the length of the maximal run of
consecutive integers ending at `d`, walking backward, each of which is in
`dc` (so `d, d-1, ..., d-k+1 ∈ dc` and the run cannot be extended). -/
def isMaxRun (dc : List Int) (d : Int) (k : Nat) : Prop :=
  (∀ i : Nat, i < k → (d - i) ∈ dc) ∧ (d - k) ∉ dc

/-- The run the source's walk measures: as `isMaxRun`, except that every
run member must also be a day `≥ 1` (the walk `range(current_day, 0, -1)`
stops at day 1), so the run ends either at a gap or at day 1. -/
def isMaxRunFrom1 (dc : List Int) (d : Int) (k : Nat) : Prop :=
  (∀ i : Nat, i < k → (d - i) ∈ dc ∧ 1 ≤ d - i) ∧ ((d - k) ∉ dc ∨ d - k ≤ 0)

instance (dc : List Int) (d : Int) (k : Nat) : Decidable (isMaxRun dc d k) := by
  unfold isMaxRun; infer_instance

instance (dc : List Int) (d : Int) (k : Nat) : Decidable (isMaxRunFrom1 dc d k) := by
  unfold isMaxRunFrom1; infer_instance

/-- The inline default `point_values` table of `calculate_points`. -/
def defaultPointValues : List (String × Int) :=
  [("easy", 10), ("medium", 20), ("hard", 40),
   ("streak_7", 50), ("streak_14", 100), ("streak_28", 250)]

/-- `point_values.get(key, default)` on the table. -/
def pvGet (pv : List (String × Int)) (key : String) (dflt : Int) : Int :=
  (pv.lookup key).getD dflt

/-- `self.challenge_data.get('point_values', {...defaults})`. -/
def pointValuesOf (c : Catalog) : List (String × Int) :=
  c.pointValues.getD defaultPointValues

/-- Python `str.lower()` (the source only lowercases the ASCII difficulty
names), as a character-wise map. -/
def strLower (s : String) : String := String.mk (s.data.map Char.toLower)

/-- Python `str.split('_')` (the source always splits on the single
character `'_'`), as a character-list split. -/
def splitUnderscore (s : String) : List String :=
  (s.data.splitOn '_').map String.mk

/-- Decimal accumulator for `strToInt?`. -/
def digitsAux : List Char → Nat → Option Nat
  | [], acc => some acc
  | c :: rest, acc =>
    if c.isDigit then digitsAux rest (acc * 10 + (c.toNat - 48)) else none

/-- Python `int(s)` on an ASCII decimal string with an optional sign;
`none` models `ValueError`. -/
def strToInt? (s : String) : Option Int :=
  match s.data with
  | [] => none
  | '-' :: rest =>
    match rest with
    | [] => none
    | _ => (digitsAux rest 0).map fun n => -(n : Int)
  | '+' :: rest =>
    match rest with
    | [] => none
    | _ => (digitsAux rest 0).map fun n => (n : Int)
  | l => (digitsAux l 0).map fun n => (n : Int)

/-- `int(day_key.split('_')[1])`, `none` on `IndexError`/`ValueError`
(the source `continue`s on those). -/
def parseDayKey (key : String) : Option Int :=
  match (splitUnderscore key).get? 1 with
  | none => none
  | some s => strToInt? s

/-- Points for one solved id:
`problem.get('difficulty', 'Easy').lower()` then
`point_values.get(difficulty, 10)`; an unresolved id contributes `0`. -/
def problemPoints (pv : List (String × Int)) (c : Catalog)
    (day_num : Int) (pid : String) : Int :=
  match get_problem c day_num pid with
  | some problem => pvGet pv (strLower (problem.difficulty.getD "Easy")) 10
  | none => 0

/-- Points contributed by one `problems_solved` entry; a key that does not
parse as `day_N` contributes nothing (`continue`). -/
def dayEntryPoints (pv : List (String × Int)) (c : Catalog)
    (entry : String × List String) : Int :=
  match parseDayKey entry.1 with
  | none => 0
  | some day_num => (entry.2.map (problemPoints pv c day_num)).sum

/-- The streak-bonus block of `calculate_points` (only the best tier). -/
def streakBonus (pv : List (String × Int)) (best_streak : Int) : Int :=
  if best_streak ≥ 28 then pvGet pv "streak_28" 250
  else if best_streak ≥ 14 then pvGet pv "streak_14" 100
  else if best_streak ≥ 7 then pvGet pv "streak_7" 50
  else 0

/-- `sum(1 for s in skool_submissions if s.get('status') == 'approved')`. -/
def approvedCount (subs : List SkoolSubmission) : Nat :=
  (subs.filter (fun s => s.status == some "approved")).length

/-- `calculate_points`: per-difficulty points for resolvable solved ids,
plus the single best streak tier, plus 30 per approved Skool submission.
(The record's `bonus_problems` field is not read anywhere here.) -/
def calculate_points (c : Catalog) (cd : ChallengeData) : Int :=
  let pv := pointValuesOf c
  (cd.problems_solved.map (dayEntryPoints pv c)).sum
    + streakBonus pv cd.best_streak
    + (approvedCount cd.skool_submissions : Int) * pvGet pv "skool_post_approved" 30

/-- Whether some solved id resolves (via `get_problem_by_id`) to a problem
whose `'difficulty'` key equals `'Hard'` — the condition under which the
`hard_problem` loop of `check_achievements` appends. -/
def hasHardSolved (c : Catalog) (problems_solved : List (String × List String)) : Bool :=
  problems_solved.any fun entry =>
    entry.2.any fun pid =>
      match get_problem_by_id c pid with
      | some problem => problem.difficulty == some "Hard"
      | none => false

/-- `check_achievements`: the list of newly unlocked achievement ids, in the
source's append order.  Each block appends its id only when its threshold
holds and the id is not already in `challenge_data.get('achievements', [])`
(the `hard_problem` loop `break`s after the first append, so it contributes
the id at most once). -/
def check_achievements (c : Catalog) (cd : ChallengeData) : List String :=
  (if cd.total_problems_solved ≥ 1 ∧ "first_problem" ∉ cd.achievements
    then ["first_problem"] else [])
  ++ (if cd.best_streak ≥ 7 ∧ "streak_7" ∉ cd.achievements
    then ["streak_7"] else [])
  ++ (if cd.best_streak ≥ 14 ∧ "streak_14" ∉ cd.achievements
    then ["streak_14"] else [])
  ++ (if cd.best_streak ≥ 28 ∧ "streak_28" ∉ cd.achievements
    then ["streak_28"] else [])
  ++ (if hasHardSolved c cd.problems_solved ∧ "hard_problem" ∉ cd.achievements
    then ["hard_problem"] else [])
  ++ (if approvedCount cd.skool_submissions ≥ 3 ∧ "community_star" ∉ cd.achievements
    then ["community_star"] else [])

/-- `f'day_{day}'`. -/
def dayKey (day : Int) : String := "day_" ++ toString day

/-- `is_day_complete`: `false` when the catalog defines no problems for the
day, else every catalog problem id of the day must appear in
`problems_solved.get(day_key, [])`. -/
def is_day_complete (c : Catalog) (day : Int)
    (problems_solved : List (String × List String)) : Bool :=
  let solved_ids := (problems_solved.lookup (dayKey day)).getD []
  let day_problems := get_day_problems c day
  if day_problems.isEmpty then false
  else day_problems.all fun p => solved_ids.contains p.id

/-- Dict update `problems_solved[day_key] = value` on the association list
(replace the value of an existing key in place, else append the new key,
matching Python dict insertion-order semantics). -/
def assocSet (l : List (String × List String)) (k : String) (v : List String) :
    List (String × List String) :=
  if l.any (fun e => e.1 == k) then
    l.map (fun e => if e.1 == k then (k, v) else e)
  else l ++ [(k, v)]

/-- The record-update step of the `complete-problem` route
(`app/routes/api.py`), for an enrolled user, from the point where
`problems_solved` is updated to the point where the record is saved.
`parsedStart`/`todayOrd` factor out the date parsing and clock exactly as in
`calculate_current_day`.  When the problem was already recorded the source
skips the whole block and the record is unchanged.  The `activity_log` and
`last_activity_date` writes are display-only and not modelled.
`list(set(old + new))` on achievements is modelled membership-faithfully by
`List.dedup` of the concatenation (Python's set order is arbitrary). -/
def complete_problem_update (c : Catalog) (parsedStart : Option Int) (todayOrd : Int)
    (cd : ChallengeData) (day : Int) (problem_id : String) : ChallengeData :=
  let day_list := (cd.problems_solved.lookup (dayKey day)).getD []
  if problem_id ∈ day_list then cd
  else
    let ps := assocSet cd.problems_solved (dayKey day) (day_list ++ [problem_id])
    let total := (ps.map (fun e => (e.2.length : Int))).sum
    let dc :=
      if is_day_complete c day ps ∧ day ∉ cd.days_completed
      then cd.days_completed ++ [day] else cd.days_completed
    let current_day := calculate_current_day parsedStart todayOrd
    let cs := (calculate_streak dc current_day : Int)
    let bs := max cd.best_streak cs
    let cd1 : ChallengeData :=
      { cd with problems_solved := ps, total_problems_solved := total,
                days_completed := dc, current_streak := cs, best_streak := bs }
    let pts := calculate_points c cd1
    let newAch := check_achievements c cd1
    let ach :=
      if newAch.isEmpty then cd1.achievements
      else (cd1.achievements ++ newAch).dedup
    { cd1 with points := pts, achievements := ach }

/-- A small concrete catalog in the shape of `challenge_problems.json`
(three day-1 problems, a day-2 Hard problem), used to evaluate the
theorems at concrete inputs. -/
def sampleCatalog : Catalog :=
  { days :=
      [ { day := 1,
          problems :=
            [ { id := "two-sum", name := "Two Sum", difficulty := some "Easy" },
              { id := "valid-anagram", name := "Valid Anagram", difficulty := some "Easy" },
              { id := "contains-duplicate", name := "Contains Duplicate",
                difficulty := some "Medium" } ] },
        { day := 2,
          problems :=
            [ { id := "trapping-rain-water", name := "Trapping Rain Water",
                difficulty := some "Hard" },
              { id := "mystery-problem", name := "Mystery Problem",
                difficulty := none },
              { id := "odd-problem", name := "Odd Problem",
                difficulty := some "Tricky" } ] } ],
    pointValues := none }

/-- A catalog whose JSON document carries no `'point_values'` key, so the
inline default point table of `calculate_points` applies (the reference
product configuration of the spec). -/
def referenceCatalog (days : List DayDef) : Catalog :=
  { days := days, pointValues := none }

/-- Claim C1.  The spec (and the source's own comment at the
`bonus-problem` route, "Recalculate points (bonus problems are worth 5
points each)") say each bonus problem adds a flat 5 points, but
`calculate_points` never reads `bonus_problems`: appending a bonus problem
to a record, all else equal, changes `calculate_points` by exactly 0, and a
record whose only content is one bonus problem scores 0 points. -/
theorem c1_bonus_problems_ignored :
    (∀ (c : Catalog) (cd : ChallengeData) (b : BonusProblem),
      calculate_points c { cd with bonus_problems := cd.bonus_problems ++ [b] }
        = calculate_points c cd)
    ∧ calculate_points sampleCatalog
        { bonus_problems := [{ url := "https://leetcode.com/problems/two-sum/",
                               name := "Two Sum" }] } = 0 := by
  exact ⟨fun c cd b => rfl, by decide⟩

/-- Claim C2.  `calculate_current_day`: when the start date parses to a
past or present calendar date the result is `(today - startDate) + 1`
clamped to `[1, 28]`; a future start date yields exactly 1; an unparseable
start date (the caught `ValueError`/`AttributeError` path, modelled by
`none`) yields exactly 1.  The function is total, so no exception
propagates. -/
theorem c2_current_day_clamped (todayOrd : Int) :
    (∀ s : Int, s ≤ todayOrd →
      calculate_current_day (some s) todayOrd = min (max ((todayOrd - s) + 1) 1) 28
        ∧ 1 ≤ calculate_current_day (some s) todayOrd
        ∧ calculate_current_day (some s) todayOrd ≤ 28)
    ∧ (∀ s : Int, todayOrd < s → calculate_current_day (some s) todayOrd = 1)
    ∧ calculate_current_day none todayOrd = 1 := by
  refine ⟨fun s _ => ⟨rfl, ?_, ?_⟩, fun s hs => ?_, rfl⟩
  · simp only [calculate_current_day]; omega
  · simp only [calculate_current_day]; omega
  · simp only [calculate_current_day]; omega

/-- Concrete instances of claim C2: enrollment 30 days ago clamps to 28,
enrollment 10 days in the future yields 1, an unparseable date yields 1. -/
theorem c2_current_day_clamped_witness :
    calculate_current_day (some 10) 40 = 28
      ∧ calculate_current_day (some 50) 40 = 1
      ∧ calculate_current_day none 40 = 1 := by
  refine ⟨?_, (c2_current_day_clamped 40).2.1 50 (by decide),
    (c2_current_day_clamped 40).2.2⟩
  have h := ((c2_current_day_clamped 40).1 10 (by decide)).1
  rw [h]; decide

/-- Claim C4.  The streak bonus of `calculate_points` applies only the
single highest tier, never cumulatively: under the reference point table,
a record with no solved problems, no Skool submissions and no bonus
problems scores exactly 250 when `bestStreak ≥ 28` (not 50+100+250),
exactly 100 for `bestStreak ∈ [14, 27]`, exactly 50 for
`bestStreak ∈ [7, 13]`, and 0 below 7. -/
theorem c4_streak_tiers_exclusive (days : List DayDef) (cd : ChallengeData)
    (hps : cd.problems_solved = []) (hsk : cd.skool_submissions = [])
    (_hb : cd.bonus_problems = []) :
    (28 ≤ cd.best_streak → calculate_points (referenceCatalog days) cd = 250)
    ∧ (14 ≤ cd.best_streak → cd.best_streak < 28 →
        calculate_points (referenceCatalog days) cd = 100)
    ∧ (7 ≤ cd.best_streak → cd.best_streak < 14 →
        calculate_points (referenceCatalog days) cd = 50)
    ∧ (cd.best_streak < 7 → calculate_points (referenceCatalog days) cd = 0) := by
  have hpts : ∀ b : Int, calculate_points (referenceCatalog days) cd
      = streakBonus defaultPointValues cd.best_streak := by
    intro _
    simp [calculate_points, pointValuesOf, referenceCatalog, hps, hsk, approvedCount]
  refine ⟨fun h => ?_, fun h1 h2 => ?_, fun h1 h2 => ?_, fun h => ?_⟩ <;>
    rw [hpts 0] <;> simp only [streakBonus] <;>
    [rw [if_pos h]; rw [if_neg (by omega), if_pos h1];
     rw [if_neg (by omega), if_neg (by omega), if_pos h1];
     rw [if_neg (by omega), if_neg (by omega), if_neg (by omega)]] <;> rfl

/-- Concrete instance of claim C4: `bestStreak = 28` with an otherwise
empty record scores exactly 250, and the other tiers evaluate as stated. -/
theorem c4_streak_tiers_exclusive_witness :
    calculate_points (referenceCatalog []) { best_streak := 28 } = 250
      ∧ calculate_points (referenceCatalog []) { best_streak := 14 } = 100
      ∧ calculate_points (referenceCatalog []) { best_streak := 7 } = 50
      ∧ calculate_points (referenceCatalog []) { best_streak := 6 } = 0 :=
  ⟨(c4_streak_tiers_exclusive [] { best_streak := 28 } rfl rfl rfl).1 (by decide),
   (c4_streak_tiers_exclusive [] { best_streak := 14 } rfl rfl rfl).2.1
     (by decide) (by decide),
   (c4_streak_tiers_exclusive [] { best_streak := 7 } rfl rfl rfl).2.2.1
     (by decide) (by decide),
   (c4_streak_tiers_exclusive [] { best_streak := 6 } rfl rfl rfl).2.2.2 (by decide)⟩

/-- Claim C6.  The streak achievement thresholds of `check_achievements`
are independent checks that stack: a record with `bestStreak ≥ 28` holding
none of the three streak achievements unlocks `streak_7`, `streak_14` and
`streak_28` in one call. -/
theorem c6_streak_achievements_stack (c : Catalog) (cd : ChallengeData)
    (hbs : 28 ≤ cd.best_streak)
    (h7 : "streak_7" ∉ cd.achievements)
    (h14 : "streak_14" ∉ cd.achievements)
    (h28 : "streak_28" ∉ cd.achievements) :
    "streak_7" ∈ check_achievements c cd
      ∧ "streak_14" ∈ check_achievements c cd
      ∧ "streak_28" ∈ check_achievements c cd := by
  simp only [check_achievements, List.mem_append]
  exact ⟨Or.inl (Or.inl (Or.inl (Or.inl (Or.inr (by rw [if_pos ⟨by omega, h7⟩]; simp))))),
    Or.inl (Or.inl (Or.inl (Or.inr (by rw [if_pos ⟨by omega, h14⟩]; simp)))),
    Or.inl (Or.inl (Or.inr (by rw [if_pos ⟨hbs, h28⟩]; simp)))⟩

/-- Concrete instance of claim C6: a fresh record reaching `bestStreak = 28`
unlocks all three streak achievements in one call. -/
theorem c6_streak_achievements_stack_witness :
    "streak_7" ∈ check_achievements sampleCatalog { best_streak := 28 }
      ∧ "streak_14" ∈ check_achievements sampleCatalog { best_streak := 28 }
      ∧ "streak_28" ∈ check_achievements sampleCatalog { best_streak := 28 } :=
  c6_streak_achievements_stack sampleCatalog { best_streak := 28 }
    (by decide) (by decide) (by decide) (by decide)

/-- Claim C5.  `check_achievements` returns only the delta of newly
unlocked achievements: no id already in `achievements` ever appears in the
returned list; and the `complete-problem` update step only ever unions the
returned delta into the stored set, so every previously held achievement
survives every update (the set only grows). -/
theorem c5_achievements_only_grow (c : Catalog) (cd : ChallengeData) :
    (∀ a ∈ check_achievements c cd, a ∉ cd.achievements)
    ∧ (∀ (parsedStart : Option Int) (todayOrd day : Int) (pid : String),
        ∀ a ∈ cd.achievements,
          a ∈ (complete_problem_update c parsedStart todayOrd cd day pid).achievements) := by
  constructor
  · intro a ha
    simp only [check_achievements, List.mem_append] at ha
    rcases ha with ((((ha | ha) | ha) | ha) | ha) | ha <;>
      · split_ifs at ha with hc
        · simp only [List.mem_singleton] at ha
          subst ha; exact hc.2
        · simp at ha
  · intro parsedStart todayOrd day pid a ha
    simp only [complete_problem_update]
    split
    · exact ha
    · split <;> split
      · exact ha
      · exact List.mem_dedup.mpr (List.mem_append.mpr (Or.inl ha))
      · exact ha
      · exact List.mem_dedup.mpr (List.mem_append.mpr (Or.inl ha))

/-- Concrete instance of claim C5: an id returned by `check_achievements`
is not already held, and a held id survives a `complete-problem` update. -/
theorem c5_achievements_only_grow_witness :
    "streak_7" ∉
      ({ achievements := ["first_problem"], best_streak := 7 } : ChallengeData).achievements
    ∧ "first_problem" ∈
      (complete_problem_update sampleCatalog (some 100) 100
        { achievements := ["first_problem"], best_streak := 7 } 1 "two-sum").achievements :=
  ⟨(c5_achievements_only_grow sampleCatalog
      { achievements := ["first_problem"], best_streak := 7 }).1 "streak_7" (by decide),
   (c5_achievements_only_grow sampleCatalog
      { achievements := ["first_problem"], best_streak := 7 }).2
      (some 100) 100 1 "two-sum" "first_problem" (by decide)⟩

/-- Claim C7.  `is_day_complete` is `false` whenever the catalog defines no
problems for the day (including invalid day numbers); otherwise it is
`true` iff every catalog-defined problem id for the day is in the solved
list for that day; and enlarging the day's solved list never un-completes
the day, so extra or unknown ids cannot prevent completion. -/
theorem c7_day_complete_iff (c : Catalog) (day : Int)
    (ps : List (String × List String)) :
    (get_day_problems c day = [] → is_day_complete c day ps = false)
    ∧ (get_day_problems c day ≠ [] →
        (is_day_complete c day ps = true ↔
          ∀ p ∈ get_day_problems c day,
            p.id ∈ ((ps.lookup (dayKey day)).getD [])))
    ∧ (∀ ps' : List (String × List String),
        (∀ x ∈ ((ps.lookup (dayKey day)).getD []),
          x ∈ ((ps'.lookup (dayKey day)).getD [])) →
        is_day_complete c day ps = true → is_day_complete c day ps' = true) := by
  have hiff : get_day_problems c day ≠ [] →
      (is_day_complete c day ps = true ↔
        ∀ p ∈ get_day_problems c day, p.id ∈ ((ps.lookup (dayKey day)).getD [])) := by
    intro hne
    simp only [is_day_complete, List.isEmpty_iff, if_neg hne, List.all_eq_true]
    constructor
    · intro h p hp
      simpa using h p hp
    · intro h p hp
      simpa using h p hp
  refine ⟨fun h => ?_, hiff, fun ps' hsub hcomp => ?_⟩
  · simp [is_day_complete, h]
  · have hne : get_day_problems c day ≠ [] := by
      intro hempty
      rw [(by simp [is_day_complete, hempty] : is_day_complete c day ps = false)] at hcomp
      exact Bool.false_ne_true hcomp
    have hall := (hiff hne).mp hcomp
    have hiff' : get_day_problems c day ≠ [] →
        (is_day_complete c day ps' = true ↔
          ∀ p ∈ get_day_problems c day, p.id ∈ ((ps'.lookup (dayKey day)).getD [])) := by
      intro hne'
      simp only [is_day_complete, List.isEmpty_iff, if_neg hne', List.all_eq_true]
      constructor
      · intro h p hp
        simpa using h p hp
      · intro h p hp
        simpa using h p hp
    exact (hiff' hne).mpr (fun p hp => hsub _ (hall p hp))

/-- Concrete instance of claim C7: day 1 of the sample catalog is complete
with all three required ids plus an unknown extra id, incomplete with an
empty solved list, and day 99 (no catalog problems) is never complete. -/
theorem c7_day_complete_iff_witness :
    is_day_complete sampleCatalog 1
      [("day_1", ["two-sum", "valid-anagram", "contains-duplicate", "extra-unknown"])] = true
    ∧ is_day_complete sampleCatalog 1 [("day_1", [])] = false
    ∧ is_day_complete sampleCatalog 99 [("day_99", ["anything"])] = false := by
  refine ⟨?_, by decide,
    (c7_day_complete_iff sampleCatalog 99 [("day_99", ["anything"])]).1 (by decide)⟩
  exact (c7_day_complete_iff sampleCatalog 1
    [("day_1", ["two-sum", "valid-anagram", "contains-duplicate", "extra-unknown"])]).2.1
    (by decide) |>.mpr (by decide)

/-- Claim C9.  `bestStreak` is a high-water mark: whenever the
`complete-problem` update step recomputes the record (a not-yet-recorded
problem), the stored `bestStreak` equals
`max(previous bestStreak, recomputed currentStreak)`, and therefore never
decreases. -/
theorem c9_best_streak_high_water (c : Catalog) (parsedStart : Option Int)
    (todayOrd : Int) (cd : ChallengeData) (day : Int) (pid : String)
    (hnew : pid ∉ ((cd.problems_solved.lookup (dayKey day)).getD [])) :
    (complete_problem_update c parsedStart todayOrd cd day pid).best_streak
      = max cd.best_streak
          (complete_problem_update c parsedStart todayOrd cd day pid).current_streak
    ∧ cd.best_streak
      ≤ (complete_problem_update c parsedStart todayOrd cd day pid).best_streak := by
  have heq : (complete_problem_update c parsedStart todayOrd cd day pid).best_streak
      = max cd.best_streak
          (complete_problem_update c parsedStart todayOrd cd day pid).current_streak := by
    simp only [complete_problem_update, if_neg hnew]
  exact ⟨heq, heq ▸ le_max_left _ _⟩

/-- Concrete instance of claim C9: completing the last day-1 problem of the
sample catalog lifts `bestStreak` from 0 to the recomputed streak 1, and a
later update with a lower recomputed streak leaves `bestStreak` at 5. -/
theorem c9_best_streak_high_water_witness :
    (complete_problem_update sampleCatalog (some 100) 100
        { problems_solved := [("day_1", ["two-sum", "valid-anagram"])] }
        1 "contains-duplicate").best_streak = 1
    ∧ (complete_problem_update sampleCatalog (some 100) 100
        { problems_solved := [("day_1", ["two-sum", "valid-anagram"])], best_streak := 5 }
        1 "contains-duplicate").best_streak = 5 := by
  have h1 := (c9_best_streak_high_water sampleCatalog (some 100) 100
    { problems_solved := [("day_1", ["two-sum", "valid-anagram"])] }
    1 "contains-duplicate" (by decide)).1
  have h2 := (c9_best_streak_high_water sampleCatalog (some 100) 100
    { problems_solved := [("day_1", ["two-sum", "valid-anagram"])], best_streak := 5 }
    1 "contains-duplicate" (by decide)).1
  refine ⟨?_, ?_⟩
  · rw [h1]; decide
  · rw [h2]; decide

/-- Claim C8.  Solved problem ids that resolve to no catalog problem
contribute nothing to `calculate_points` and raise nothing: when every
recorded id fails to resolve, the total is exactly the streak and Skool
terms; in particular the record `{problems_solved: {day_1: [not-a-real-id]}}`
with `bestStreak = 0` and no submissions scores 0. -/
theorem c8_unknown_ids_contribute_zero (c : Catalog) (cd : ChallengeData)
    (h : ∀ e ∈ cd.problems_solved, ∀ pid ∈ e.2, ∀ dn : Int,
      parseDayKey e.1 = some dn → get_problem c dn pid = none) :
    calculate_points c cd
      = streakBonus (pointValuesOf c) cd.best_streak
        + (approvedCount cd.skool_submissions : Int)
          * pvGet (pointValuesOf c) "skool_post_approved" 30 := by
  have hzero : ∀ e ∈ cd.problems_solved, dayEntryPoints (pointValuesOf c) c e = 0 := by
    intro e he
    simp only [dayEntryPoints]
    cases hk : parseDayKey e.1 with
    | none => rfl
    | some dn =>
      apply List.sum_eq_zero
      intro x hx
      obtain ⟨pid, hpid, rfl⟩ := List.mem_map.mp hx
      simp only [problemPoints, h e he pid hpid dn hk]
  have hsum : (cd.problems_solved.map (dayEntryPoints (pointValuesOf c) c)).sum = 0 := by
    apply List.sum_eq_zero
    intro x hx
    obtain ⟨e, he, rfl⟩ := List.mem_map.mp hx
    exact hzero e he
  simp only [calculate_points, hsum, zero_add]

/-- Concrete instance of claim C8: the spec's scenario
`problemsSolved = {day_1: [not-a-real-id]}` on the sample catalog scores
exactly 0 points. -/
theorem c8_unknown_ids_contribute_zero_witness :
    calculate_points sampleCatalog
      { problems_solved := [("day_1", ["not-a-real-id"])] } = 0 := by
  have h := c8_unknown_ids_contribute_zero sampleCatalog
    { problems_solved := [("day_1", ["not-a-real-id"])] }
    (by
      intro e he pid hpid dn hk
      simp only [List.mem_singleton] at he
      subst he
      simp only [List.mem_singleton] at hpid
      subst hpid
      have h1 : parseDayKey "day_1" = some 1 := by decide
      rw [h1] at hk
      cases hk
      decide)
  rw [h]
  decide

/-- Claim C10.  Under the reference point table, a solved id that resolves
to a catalog problem whose `'difficulty'` key is missing, or whose
lowercased difficulty is not a key of the table, contributes the Easy value
of 10 points (missing difficulty defaults to `'Easy'`, unknown lookup keys
default to 10) — not 0 and not an error; a record whose only content is one
such solved problem scores exactly 10. -/
theorem c10_difficulty_defaults (days : List DayDef) (dn : Int) (pid : String)
    (p : Problem) (hres : get_problem (referenceCatalog days) dn pid = some p)
    (hdiff : p.difficulty = none
      ∨ defaultPointValues.lookup (strLower (p.difficulty.getD "Easy")) = none) :
    problemPoints defaultPointValues (referenceCatalog days) dn pid = 10
    ∧ (∀ key : String, parseDayKey key = some dn →
        calculate_points (referenceCatalog days)
          { problems_solved := [(key, [pid])] } = 10) := by
  have hpp : problemPoints defaultPointValues (referenceCatalog days) dn pid = 10 := by
    simp only [problemPoints, hres]
    rcases hdiff with hd | hd
    · rw [hd]; rfl
    · simp only [pvGet, hd, Option.getD_none]
  refine ⟨hpp, fun key hkey => ?_⟩
  have hpv : pointValuesOf (referenceCatalog days) = defaultPointValues := rfl
  simp only [calculate_points, hpv, List.map_cons, List.map_nil, dayEntryPoints, hkey,
    List.sum_cons, List.sum_nil, streakBonus, approvedCount, List.filter_nil]
  rw [hpp]
  decide

/-- Concrete instances of claim C10 on the sample catalog: the day-2
problem without a `'difficulty'` key and the day-2 problem with the unknown
difficulty `'Tricky'` each contribute 10, and a record containing only the
latter scores exactly 10. -/
theorem c10_difficulty_defaults_witness :
    problemPoints defaultPointValues (referenceCatalog sampleCatalog.days) 2
        "mystery-problem" = 10
    ∧ calculate_points (referenceCatalog sampleCatalog.days)
        { problems_solved := [("day_2", ["odd-problem"])] } = 10 :=
  ⟨(c10_difficulty_defaults sampleCatalog.days 2 "mystery-problem"
      { id := "mystery-problem", name := "Mystery Problem", difficulty := none }
      (by decide) (Or.inl rfl)).1,
   (c10_difficulty_defaults sampleCatalog.days 2 "odd-problem"
      { id := "odd-problem", name := "Odd Problem", difficulty := some "Tricky" }
      (by decide) (Or.inr (by decide))).2 "day_2" (by decide)⟩

/-- The backwards walk `countStreak` measures a run of days in
`days_completed`, all `≥ 1`, that ends at a gap or at day 0. -/
theorem countStreak_isMaxRunFrom1 (dc : List Int) (n : Nat) :
    (∀ i : Nat, i < countStreak dc n → ((n : Int) - i) ∈ dc ∧ 1 ≤ (n : Int) - i)
    ∧ (((n : Int) - countStreak dc n) ∉ dc ∨ (n : Int) - countStreak dc n ≤ 0) := by
  induction n with
  | zero =>
    refine ⟨fun i hi => absurd hi (by simp [countStreak]), Or.inr (by simp [countStreak])⟩
  | succ n ih =>
    by_cases hmem : ((n : Int) + 1) ∈ dc
    · have hc : countStreak dc (n + 1) = countStreak dc n + 1 := by
        simp [countStreak, hmem]
      rw [hc]
      constructor
      · intro i hi
        cases i with
        | zero =>
          have h0 : ((n + 1 : Nat) : Int) - ((0 : Nat) : Int) = (n : Int) + 1 := by
            push_cast; ring
          rw [h0]
          exact ⟨hmem, by omega⟩
        | succ j =>
          have hj : j < countStreak dc n := by omega
          have hstep : ((n + 1 : Nat) : Int) - ((j + 1 : Nat) : Int) = (n : Int) - j := by
            push_cast; ring
          rw [hstep]
          exact ih.1 j hj
      · have hstep : ((n + 1 : Nat) : Int) - ((countStreak dc n + 1 : Nat) : Int)
            = (n : Int) - countStreak dc n := by
          push_cast; ring
        rw [hstep]
        exact ih.2
    · have hc : countStreak dc (n + 1) = 0 := by
        simp [countStreak, hmem]
      rw [hc]
      refine ⟨fun i hi => absurd hi (by omega), Or.inl ?_⟩
      have h0 : ((n + 1 : Nat) : Int) - ((0 : Nat) : Int) = (n : Int) + 1 := by
        push_cast; ring
      rw [h0]
      exact hmem

/-- `calculate_streak` computes the run of completed days ending at
`current_day`, truncated at day 1. -/
theorem calculate_streak_isMaxRunFrom1 (dc : List Int) (d : Int) :
    isMaxRunFrom1 dc d (calculate_streak dc d) := by
  unfold calculate_streak
  split
  · rename_i hemp
    rw [List.isEmpty_iff.mp hemp]
    exact ⟨fun i hi => absurd hi (by omega), Or.inl (List.not_mem_nil _)⟩
  · by_cases hd : d ≤ 0
    · have h0 : d.toNat = 0 := Int.toNat_of_nonpos hd
      rw [h0]
      have hc : countStreak dc 0 = 0 := rfl
      rw [hc]
      exact ⟨fun i hi => absurd hi (by omega), Or.inr (by simpa using hd)⟩
    · have hcast : (d.toNat : Int) = d := Int.toNat_of_nonneg (by omega)
      have h := countStreak_isMaxRunFrom1 dc d.toNat
      rw [hcast] at h
      exact h

/-- Two truncated maximal-run lengths for the same data coincide. -/
theorem isMaxRunFrom1_unique {dc : List Int} {d : Int} {k k' : Nat}
    (h : isMaxRunFrom1 dc d k) (h' : isMaxRunFrom1 dc d k') : k = k' := by
  have key : ∀ {a b : Nat}, a < b →
      isMaxRunFrom1 dc d a → isMaxRunFrom1 dc d b → False := by
    intro a b hlt ha hb
    have hm := hb.1 a hlt
    rcases ha.2 with hc | hc
    · exact hc hm.1
    · have := hm.2; omega
  rcases Nat.lt_trichotomy k k' with hlt | heq | hlt
  · exact absurd (key hlt h h') id
  · exact heq
  · exact absurd (key hlt h' h) id

/-- Claim C3, counterexample to the statement as written: with
`daysCompleted = [1, 0]` and `currentDay = 1`, the maximal run of
consecutive integers ending at 1 walking backward, each present in the set,
is `1, 0` of length 2, but `calculate_streak` stops its walk at day 1 and
returns 1. -/
theorem c3_streak_counterexample :
    isMaxRun [1, 0] 1 2 ∧ calculate_streak [1, 0] 1 = 1
      ∧ calculate_streak [1, 0] 1 ≠ 2 := by
  decide

/-- Claim C3 as amended: `calculate_streak` returns the length of the
maximal run of consecutive integers ending at `currentDay`, walking
backward, each of which is in `daysCompleted` **and is at least 1** (the
walk never crosses below day 1); in particular the result is 0 whenever
`currentDay` is not in `daysCompleted`, and 0 whenever `currentDay ≤ 0`. -/
theorem c3_streak_maximal_run (dc : List Int) (d : Int) :
    (∀ k : Nat, isMaxRunFrom1 dc d k → calculate_streak dc d = k)
    ∧ (d ∉ dc → calculate_streak dc d = 0)
    ∧ (d ≤ 0 → calculate_streak dc d = 0) := by
  have hsat := calculate_streak_isMaxRunFrom1 dc d
  refine ⟨fun k hk => isMaxRunFrom1_unique hsat hk, fun hmem => ?_, fun hle => ?_⟩
  · refine isMaxRunFrom1_unique hsat ⟨fun i hi => absurd hi (by omega), Or.inl ?_⟩
    simpa using hmem
  · exact isMaxRunFrom1_unique hsat
      ⟨fun i hi => absurd hi (by omega), Or.inr (by simpa using hle)⟩

/-- Concrete instances of amended claim C3: the spec's gap scenario
`daysCompleted = [1,2,4,5]`, `currentDay = 5` yields 2; a current day not
in the set yields 0; a non-positive current day yields 0. -/
theorem c3_streak_maximal_run_witness :
    calculate_streak [1, 2, 4, 5] 5 = 2
      ∧ calculate_streak [1, 2, 4] 5 = 0
      ∧ calculate_streak [1, 2, 4, 5] (-3) = 0 :=
  ⟨(c3_streak_maximal_run [1, 2, 4, 5] 5).1 2 (by decide),
   (c3_streak_maximal_run [1, 2, 4] 5).2.1 (by decide),
   (c3_streak_maximal_run [1, 2, 4, 5] (-3)).2.2 (by decide)⟩

end Challenge
